import Mathlib

/-!
# Kexer: the cluster exec connector

A shallow embedding of `pkg/apis/backup/v1/cluster_exec.go` and
`pkg/apis/backup/v1/cluster_types_storage.go`.

Conventions of the embedding:

* Go strings and byte slices are Lean strings; `string(b)` is the identity and
  `fmt.Sprintf` with `%s` verbs is concatenation.
* A Go function returning `(value, error)` returns an `Outcome`; a run-time
  panic (index out of range, nil dereference) is a third outcome.
* Calls to the external collaborators (pod lookup, node connection lookup) are
  recorded, in order, in the `calls` of a `Traced` result.
* Library functions of the Go standard library and of Kubernetes are embedded
  from their upstream definitions; collaborators whose behaviour depends on
  the network or the process are parameters.
-/

namespace Kexer

/-! ## Go standard library -/

namespace strings

/-- Tokens of a character list cut at every occurrence of `sep`. -/
def splitChars (sep : Char) : List Char → List (List Char)
  | [] => [[]]
  | c :: cs =>
    if c = sep then [] :: splitChars sep cs
    else
      match splitChars sep cs with
      | [] => [[c]]
      | t :: ts => (c :: t) :: ts

/-- Go `strings.Split(s, sep)` for a separator of one character (the source
only splits on "/"): the substrings between the separators, so one more token
than there are separators, and the single empty token for the empty string. -/
def Split (s : String) (sep : Char) : List String :=
  (splitChars sep s.data).map String.mk

/-- Go `strings.Join(elems, sep)`. -/
def Join : List String → String → String
  | [], _ => ""
  | [a], _ => a
  | a :: b :: rest, sep => a ++ sep ++ Join (b :: rest) sep

end strings

namespace net

/-- Go `net.JoinHostPort`: a host holding a colon is bracketed. -/
def JoinHostPort (host port : String) : String :=
  if host.data.contains ':' then "[" ++ host ++ "]:" ++ port
  else host ++ ":" ++ port

end net

namespace url

/-- Go `url.Values`, a map from key to the list of its values, as an
association list with one entry per key. -/
abbrev Values := List (String × List String)

/-- Go `v[key]`: the values stored under `key`, nil when the key is absent. -/
def Values.index (v : Values) (key : String) : List String :=
  match v with
  | [] => []
  | (k, vs) :: rest => if k = key then vs else Values.index rest key

/-- Whether `key` is a key of the map. -/
def Values.has (v : Values) (key : String) : Bool :=
  match v with
  | [] => false
  | (k, _) :: rest => if k = key then true else Values.has rest key

/-- Go `Values.Get`: the first value under `key`, or the empty string. -/
def Values.Get (v : Values) (key : String) : String :=
  match Values.index v key with
  | [] => ""
  | x :: _ => x

/-- Go `Values.Add`: `v[key] = append(v[key], value)`. -/
def Values.Add (v : Values) (key value : String) : Values :=
  match v with
  | [] => [(key, [value])]
  | (k, vs) :: rest =>
    if k = key then (k, vs ++ [value]) :: rest
    else (k, vs) :: Values.Add rest key value

/-- UTF-8 bytes of a character. -/
def utf8Bytes (c : Char) : List Nat :=
  let n := c.toNat
  if n < 0x80 then [n]
  else if n < 0x800 then [0xC0 + n / 64, 0x80 + n % 64]
  else if n < 0x10000 then [0xE0 + n / 4096, 0x80 + (n / 64) % 64, 0x80 + n % 64]
  else [0xF0 + n / 262144, 0x80 + (n / 4096) % 64, 0x80 + (n / 64) % 64, 0x80 + n % 64]

/-- Upper-case hexadecimal digit, as in Go `"0123456789ABCDEF"[d]`. -/
def upperhex (d : Nat) : Char :=
  if d < 10 then Char.ofNat (48 + d) else Char.ofNat (55 + d)

/-- Go `shouldEscape(c, encodeQueryComponent)`: only the unreserved bytes
(letters, digits, `-`, `_`, `.`, `~`) stay as they are. -/
def shouldEscape (b : Nat) : Bool :=
  !((97 ≤ b && b ≤ 122) || (65 ≤ b && b ≤ 90) || (48 ≤ b && b ≤ 57)
    || b = 45 || b = 95 || b = 46 || b = 126)

/-- Escape one byte for a query component: a space becomes `+`. -/
def escapeByte (b : Nat) : List Char :=
  if b = 32 then ['+']
  else if shouldEscape b then ['%', upperhex (b / 16), upperhex (b % 16)]
  else [Char.ofNat b]

/-- Go `url.QueryEscape`. -/
def QueryEscape (s : String) : String :=
  String.mk ((s.data.flatMap utf8Bytes).flatMap escapeByte)

/-- Go string order `a < b` on character lists: lexicographic by code point,
which is the byte order of the UTF-8 encodings. -/
def lessChars : List Char → List Char → Bool
  | _, [] => false
  | [], _ :: _ => true
  | a :: as, b :: bs =>
    if a.toNat < b.toNat then true
    else if b.toNat < a.toNat then false
    else lessChars as bs

/-- Go string order `a < b`. -/
def less (a b : String) : Bool := lessChars a.data b.data

/-- Insert a key into a list of keys sorted increasingly. -/
def insertKey (k : String) : List String → List String
  | [] => [k]
  | x :: xs => if less k x then k :: x :: xs else x :: insertKey k xs

/-- The keys of the map in increasing order (Go `slices.Sort(keys)`). -/
def sortedKeys (v : Values) : List String :=
  (v.map Prod.fst).foldr insertKey []

/-- Go `Values.Encode`: `key=value` pairs joined by `&`, keys sorted, the
values of one key in their stored order, both sides query-escaped. -/
def Values.Encode (v : Values) : String :=
  strings.Join
    ((sortedKeys v).flatMap fun k =>
      (Values.index v k).map fun x => QueryEscape k ++ "=" ++ QueryEscape x)
    "&"

/-- Go `url.URL`, the fields the connector sets or reads. -/
structure URL where
  Scheme : String
  Host : String
  Path : String
  RawQuery : String
deriving DecidableEq, Repr

end url

/-! ## Errors, outcomes and traces -/

/-- A Go `error` value: an API status error (`*errors.StatusError`, with its
HTTP code, reason and message) or a plain error made by `fmt.Errorf`. -/
inductive GoError where
  | status (code : Nat) (reason : String) (message : String)
  | plain (message : String)
deriving DecidableEq, Repr

namespace errors

/-- Upstream `errors.NewBadRequest(reason)`: status 400, reason BadRequest,
the text as message. -/
def NewBadRequest (reason : String) : GoError :=
  .status 400 "BadRequest" reason

/-- Upstream `errors.IsBadRequest`, by the reason of the status. -/
def IsBadRequest : GoError → Bool
  | .status _ reason _ => reason = "BadRequest"
  | .plain _ => false

end errors

/-- Go `error.Error()`: the message of an error. -/
def GoError.Error : GoError → String
  | .status _ _ message => message
  | .plain message => message

namespace fmt

/-- Go `fmt.Errorf` with a constant text. -/
def Errorf (message : String) : GoError := .plain message

end fmt

/-- A Go run-time panic. -/
inductive Panic where
  | indexOutOfRange (index length : Nat)
  | nilDereference
deriving DecidableEq, Repr

/-- How a Go call ends: a value, an error value, or a panic. -/
inductive Outcome (α : Type) where
  | ok (a : α)
  | err (e : GoError)
  | panic (p : Panic)
deriving DecidableEq, Repr

/-- A call made to an external collaborator. -/
inductive Call where
  | podsGet (ns name : String)
  | getConnectionInfo (nodeName : String)
deriving DecidableEq, Repr

/-- An outcome together with the collaborator calls made on the way to it. -/
structure Traced (α : Type) where
  calls : List Call
  outcome : Outcome α
deriving DecidableEq, Repr

/-- Return a value without calling anything. -/
def Traced.pure {α : Type} (a : α) : Traced α := ⟨[], .ok a⟩

/-- Return an error without calling anything. -/
def Traced.fail {α : Type} (e : GoError) : Traced α := ⟨[], .err e⟩

/-- Sequencing: an error or panic ends the run, keeping the calls made. -/
def Traced.bind {α β : Type} (x : Traced α) (f : α → Traced β) : Traced β :=
  match x.outcome with
  | .ok a => ⟨x.calls ++ (f a).calls, (f a).outcome⟩
  | .err e => ⟨x.calls, .err e⟩
  | .panic p => ⟨x.calls, .panic p⟩

instance : Monad Traced where
  pure := Traced.pure
  bind := Traced.bind

/-- Go slice indexing `s[i]`, which panics out of range. -/
def indexString (s : List String) (i : Nat) : Traced String :=
  match s[i]? with
  | some x => ⟨[], .ok x⟩
  | none => ⟨[], .panic (.indexOutOfRange i s.length)⟩

/-! ## Data model -/

/-- Source `ClusterExec`, the connect options. `Params` is a pointer and may
be nil. -/
structure ClusterExec where
  Stdin : Bool
  Stdout : Bool
  Stderr : Bool
  TTY : Bool
  Container : String
  Command : List String
  Path : String
  Params : Option url.Values
deriving DecidableEq, Repr

/-- Upstream `runtime.Object` values the connector can be handed: its own
options type, or an object of another type (with its `%v` and `%#v`
renderings). -/
inductive RuntimeObject where
  | clusterExec (e : ClusterExec)
  | other (rendering : String) (goSyntax : String)
deriving DecidableEq, Repr

/-- Upstream `corev1.Container`, the field the connector reads. -/
structure Container where
  Name : String
deriving DecidableEq, Repr

/-- Upstream `corev1.PodSpec`, the fields the connector reads. -/
structure PodSpec where
  Containers : List Container
  InitContainers : List Container
  NodeName : String
deriving DecidableEq, Repr

/-- Upstream `corev1.Pod`, the fields the connector reads. -/
structure Pod where
  Namespace : String
  Name : String
  Spec : PodSpec
deriving DecidableEq, Repr

/-- A handle on a Go `http.RoundTripper`. -/
abbrev RoundTripper := String

/-- Modelled from the spec: the type `kubelet.ConnectionInfo` is declared in
the package `pkg/kubelet` of the repository, outside the source files; its
fields are the NodeConnectionInfo of the spec, the ones `streamLocation`
reads. -/
structure ConnectionInfo where
  Scheme : String
  Hostname : String
  Port : String
  Transport : RoundTripper
deriving DecidableEq, Repr

/-- The pod lookup `getter.Pods(namespace).Get(ctx, name, ...)`. -/
abbrev PodGetter := String → String → Except GoError Pod

/-- The node connection lookup `connInfo.GetConnectionInfo(ctx, nodeName)`. -/
abbrev ConnectionInfoGetter := String → Except GoError ConnectionInfo

/-- Call the pod lookup, recording the call. -/
def podsGet (getter : PodGetter) (ns name : String) : Traced Pod :=
  ⟨[.podsGet ns name],
    match getter ns name with
    | .ok pod => .ok pod
    | .error e => .err e⟩

/-- Call the node connection lookup, recording the call. -/
def getConnectionInfo (connInfo : ConnectionInfoGetter) (nodeName : String) :
    Traced ConnectionInfo :=
  ⟨[.getConnectionInfo nodeName],
    match connInfo nodeName with
    | .ok info => .ok info
    | .error e => .err e⟩

namespace corev1

/-- Constant `ExecStdinParam` of the upstream package `k8s.io/api/core/v1`
(types.go): the query key under which the node agent reads the stdin flag. -/
def ExecStdinParam : String := "input"

/-- Constant `ExecStdoutParam` of the upstream package `k8s.io/api/core/v1`
(types.go): the query key of the stdout flag. -/
def ExecStdoutParam : String := "output"

/-- Constant `ExecStderrParam` of the upstream package `k8s.io/api/core/v1`
(types.go): the query key of the stderr flag. -/
def ExecStderrParam : String := "error"

/-- Constant `ExecTTYParam` of the upstream package `k8s.io/api/core/v1`
(types.go): the query key of the tty flag. -/
def ExecTTYParam : String := "tty"

/-- Upstream node address type `corev1.NodeInternalDNS`. -/
def NodeInternalDNS : String := "InternalDNS"

/-- Upstream node address type `corev1.NodeInternalIP`. -/
def NodeInternalIP : String := "InternalIP"

/-- Upstream node address type `corev1.NodeHostName`. -/
def NodeHostName : String := "Hostname"

/-- Upstream node address type `corev1.NodeExternalDNS`. -/
def NodeExternalDNS : String := "ExternalDNS"

/-- Upstream node address type `corev1.NodeExternalIP`. -/
def NodeExternalIP : String := "ExternalIP"

end corev1

/-! ## Target resolution (`cluster_exec.go`) -/

/-- Source `getContainerNames`: the container names joined by a space. -/
def getContainerNames (containers : List Container) : String :=
  strings.Join (containers.map Container.Name) " "

/-- Source `podHasContainerWithName`: the loop sets the flag at every match
and never clears it. -/
def podHasContainerWithName (pod : Pod) (containerName : String) : Bool :=
  pod.Spec.Containers.foldl
    (fun hasContainer c => if c.Name = containerName then true else hasContainer) false

/-- Add `value` under `key` when the flag is set. -/
def addIf (flag : Bool) (params : url.Values) (key value : String) : url.Values :=
  if flag then params.Add key value else params

/-- Source `streamParams`: the parameters after the call, or the error of the
default branch of the type switch. -/
def streamParams (params : url.Values) (opts : RuntimeObject) : Except GoError url.Values :=
  match opts with
  | .clusterExec opts =>
    let params := addIf opts.Stdin params corev1.ExecStdinParam "1"
    let params := addIf opts.Stdout params corev1.ExecStdoutParam "1"
    let params := addIf opts.Stderr params corev1.ExecStderrParam "1"
    let params := addIf opts.TTY params corev1.ExecTTYParam "1"
    .ok (opts.Command.foldl (fun params c => params.Add "command" c) params)
  | .other rendering _ => .error (.plain ("unknown object for streaming: " ++ rendering))

/-- The container selection of `streamLocation` (the `if container == ""`
block): the container to use, or the BadRequest error. -/
def selectContainer (pod : Pod) (name container : String) : Traced String :=
  if container = "" then
    match pod.Spec.Containers with
    | [c] => Traced.pure c.Name
    | [] =>
      Traced.fail (errors.NewBadRequest
        ("a container name must be specified for pod " ++ name))
    | _ =>
      let containerNames := getContainerNames pod.Spec.Containers
      let initContainerNames := getContainerNames pod.Spec.InitContainers
      let err := "a container name must be specified for pod " ++ name
        ++ ", choose one of: [" ++ containerNames ++ "]"
      let err :=
        if initContainerNames.utf8ByteSize > 0 then
          err ++ " or one of the init containers: [" ++ initContainerNames ++ "]"
        else err
      Traced.fail (errors.NewBadRequest err)
  else if !podHasContainerWithName pod container then
    Traced.fail (errors.NewBadRequest
      ("container " ++ container ++ " is not valid for pod " ++ name))
  else Traced.pure container

/-- Source `streamLocation`. -/
def streamLocation (getter : PodGetter) (connInfo : ConnectionInfoGetter) (name : String)
    (opts : RuntimeObject) (container path : String) : Traced (url.URL × RoundTripper) :=
  match opts with
  | .other _ _ => ⟨[], .panic .nilDereference⟩
  | .clusterExec execOpts =>
    let ptokens := strings.Split execOpts.Path '/'
    if ptokens.length < 5 then
      Traced.fail (errors.NewBadRequest "invalid request")
    else do
      let podns ← indexString ptokens 4
      let podname ← indexString ptokens 6
      let pod ← podsGet getter podns podname
      let container ← selectContainer pod name container
      let nodeName := pod.Spec.NodeName
      if nodeName.utf8ByteSize = 0 then
        Traced.fail (errors.NewBadRequest
          ("pod " ++ name ++ " does not have a host assigned"))
      else do
        let nodeInfo ← getConnectionInfo connInfo nodeName
        match streamParams [] opts with
        | .error e => Traced.fail e
        | .ok params =>
          Traced.pure
            ({ Scheme := nodeInfo.Scheme
               Host := net.JoinHostPort nodeInfo.Hostname nodeInfo.Port
               Path := "/" ++ path ++ "/" ++ pod.Namespace ++ "/" ++ pod.Name ++ "/" ++ container
               RawQuery := params.Encode },
              nodeInfo.Transport)

/-- Source `ExecLocation`. -/
def ExecLocation (getter : PodGetter) (connInfo : ConnectionInfoGetter) (name : String)
    (opts : ClusterExec) : Traced (url.URL × RoundTripper) :=
  streamLocation getter connInfo name (.clusterExec opts) opts.Container "exec"

/-! ## Cluster descriptors and client configuration -/

/-- Modelled from the spec: the type `ClusterSpec` is declared in the
repository outside the source files; its fields are the ClusterDescriptor of
the spec, the ones the source reads and writes. -/
structure ClusterSpec where
  EndpointUrl : String
  SecretToken : String
deriving DecidableEq, Repr

/-- Modelled from the spec: the resource type `Cluster` is declared in the
repository outside the source files; the source reads and writes its `Spec`. -/
structure Cluster where
  Spec : ClusterSpec
deriving DecidableEq, Repr

/-- Upstream `corev1.Secret`, its `Data` map. -/
structure Secret where
  Data : List (String × String)
deriving DecidableEq, Repr

/-- Go map indexing `m[key]` on a data map, then `string(...)`: the value, or
the empty string for a missing key. -/
def dataIndex (m : List (String × String)) (key : String) : String :=
  match m with
  | [] => ""
  | (k, v) :: rest => if k = key then v else dataIndex rest key

/-- The secret lookup `GetK8sClient().CoreV1().Secrets(namespace).Get(ctx, name, ...)`. -/
abbrev SecretGetter := String → String → Except GoError Secret

/-- Source `Cluster.Get` (`cluster_types_storage.go`): the returned object and
the returned error (`none` is a nil error). `namespaceName` is
`request.NamespaceValue(ctx)`. -/
def Cluster.Get (secrets : SecretGetter) (namespaceName name : String) :
    Cluster × Option GoError :=
  let e : Option GoError := none
  let cluster : Cluster := { Spec := { EndpointUrl := "", SecretToken := "" } }
  match secrets namespaceName name with
  | .error _ => (cluster, e)
  | .ok secret =>
    let cluster := { cluster with Spec := { cluster.Spec with
      EndpointUrl := dataIndex secret.Data "endpointUrl" } }
    let cluster := { cluster with Spec := { cluster.Spec with
      SecretToken := dataIndex secret.Data "token" } }
    (cluster, e)

namespace time

/-- Go `time.Millisecond`, in nanoseconds. -/
def Millisecond : Nat := 1000000

/-- Go `time.Second`, in nanoseconds. -/
def Second : Nat := 1000000000

end time

/-- Upstream `rest.TLSClientConfig`, the fields the connector sets or reads. -/
structure TLSClientConfig where
  Insecure : Bool := false
  CertData : String := ""
  KeyData : String := ""
  CAData : String := ""
deriving DecidableEq, Repr

/-- Upstream `rest.Config`, the fields the connector sets or reads. -/
structure Config where
  Host : String := ""
  BearerToken : String := ""
  TLSClientConfig : TLSClientConfig := {}
  Timeout : Nat := 0
deriving DecidableEq, Repr

/-- Upstream `corev1.Node`, its name and `(type, address)` list. -/
structure Node where
  Name : String
  Addresses : List (String × String)
deriving DecidableEq, Repr

/-- A `kubernetes.Interface`, reduced to the two lookups made through it:
`CoreV1().Pods(ns).Get` and `CoreV1().Nodes().Get`. -/
structure Client where
  pods : PodGetter
  nodes : String → Except GoError Node

/-- Modelled from the spec: the type `kubelet.KubeletClientConfig` is declared
in the package `pkg/kubelet` of the repository, outside the source files; its
fields are the ones the handler sets. -/
structure KubeletClientConfig where
  Port : Nat
  ReadOnlyPort : Nat
  PreferredAddressTypes : List String
  BearerToken : String
  EnableHTTPS : Bool
  HTTPTimeout : Nat
  TLSClientConfig : TLSClientConfig
deriving DecidableEq, Repr

/-- The collaborators of the handler outside the source files: process
globals and library calls whose result depends on the network, the process
or packages outside the source files. -/
structure Env where
  /-- Result of `loopback.GetLoopbackMasterClientConfig()`, nil before it is set. -/
  loopbackConfig : Option Config
  /-- Result of `utils.GetK8sClient()`, the process-wide client. -/
  kubeClient : Client
  /-- Upstream `kubernetes.NewForConfig`. -/
  newForConfig : Config → Except GoError Client
  /-- Upstream `clientgorest.TransportFor`. -/
  transportFor : Config → Except GoError RoundTripper
  /-- Go `url.Parse`; on an error the returned pointer is nil. -/
  urlParse : String → Except GoError url.URL
  /-- Constructor `kubelet.NewNodeConnectionInfoGetter` (its error result is
  dropped by the handler). -/
  newNodeConnectionInfoGetter :
    (String → Except GoError Node) → KubeletClientConfig → ConnectionInfoGetter
  /-- The host result of `net.SplitHostPort` (empty on an error). -/
  splitHostPort : String → String
  /-- Upstream `transport.TLSConfigFor(kubeletcfg.TransportConfig())`. -/
  tlsConfigFor : KubeletClientConfig → Except GoError String
  /-- Upstream `transport.HTTPWrappersForConfig(kubeletcfg.TransportConfig(), ...)`. -/
  httpWrappersForConfig : KubeletClientConfig → Except GoError String

/-- The configuration `NewConfigFromCluster` builds for a remote cluster. -/
def remoteConfig (c : Cluster) : Config :=
  let cfg : Config := { Timeout := time.Second * 40 }
  let cfg := { cfg with Host := c.Spec.EndpointUrl }
  let cfg := { cfg with TLSClientConfig := { Insecure := true } }
  { cfg with BearerToken := c.Spec.SecretToken }

/-- Source `NewConfigFromCluster`. -/
def NewConfigFromCluster (env : Env) (c : Cluster) : Except GoError (Config × Client) :=
  if c.Spec.EndpointUrl = "" ∧ c.Spec.SecretToken = "" then
    match env.loopbackConfig with
    | none => .error (fmt.Errorf "invalid client config")
    | some cfg => .ok (cfg, env.kubeClient)
  else
    let cfg := remoteConfig c
    match env.newForConfig cfg with
    | .error err => .error err
    | .ok k8sclient => .ok (cfg, k8sclient)

/-! ## The connector handler -/

/-- Source `execHandler` (the responder is the error responder handed on to
the proxy and plays no part before the exchange starts). -/
structure execHandler where
  parentName : String
  isExec : Bool
  execOpts : ClusterExec
  clusterConfig : Cluster
deriving DecidableEq, Repr

/-- Source `ClusterExec.ConvertFromUrlValues`. -/
def ConvertFromUrlValues (values : url.Values) : ClusterExec :=
  { Stderr := values.Get "stderr" = "true"
    Stdin := values.Get "stdin" = "true"
    Stdout := values.Get "stdout" = "true"
    TTY := values.Get "tty" = "true"
    Container := values.Get "container"
    Command := values.index "command"
    Path := values.Get "path"
    Params := some values }

/-- Source `ClusterExec.Connect`. `parentStorage` is the result of
`contextutil.GetParentStorageGetter(ctx)` (`none` when not found) and its
function is `parentStorage.Get(ctx, id, ...)`. -/
def Connect (parentStorage : Option (String → Except GoError Cluster)) (id : String)
    (options : RuntimeObject) : Outcome execHandler :=
  match options with
  | .other _ goSyntax => .err (.plain ("invalid options object: " ++ goSyntax))
  | .clusterExec execOpts =>
    match parentStorage with
    | none => .err (fmt.Errorf "no parent storage found")
    | some storage =>
      match storage id with
      | .error _ => .err (.plain ("no such cluster " ++ id))
      | .ok clusterObj =>
        let ptokens := strings.Split execOpts.Path '/'
        match ptokens[ptokens.length - 1]? with
        | none => .panic (.indexOutOfRange (ptokens.length - 1) ptokens.length)
        | some last =>
          .ok { parentName := id
                clusterConfig := clusterObj
                execOpts := execOpts
                isExec := last = "exec" }

/-- The proxied exchange the handler starts: `proxy.ServeHTTP(writer, newReq)`
with the proxy and request as configured by the handler. -/
structure ProxyExchange where
  location : url.URL
  requestHost : String
  transport : RoundTripper
  upgradeTransport : Option (String × String)
  flushInterval : Nat
deriving DecidableEq, Repr

/-- How `execHandler.ServeHTTP` ends: it answers through
`responsewriters.InternalError(writer, request, err)` and returns, or it
starts the proxied exchange, or it panics. -/
inductive Served where
  | internalError (err : GoError)
  | proxied (exchange : ProxyExchange)
  | panic (p : Panic)
deriving DecidableEq, Repr

/-- The kubelet client configuration built by the handler in exec mode. -/
def kubeletConfig (cfg : Config) : KubeletClientConfig :=
  { Port := 10250
    ReadOnlyPort := 10255
    PreferredAddressTypes :=
      [corev1.NodeInternalDNS, corev1.NodeInternalIP, corev1.NodeHostName,
        corev1.NodeExternalDNS, corev1.NodeExternalIP]
    BearerToken := cfg.BearerToken
    EnableHTTPS := true
    HTTPTimeout := 5 * time.Second
    TLSClientConfig :=
      { CertData := cfg.TLSClientConfig.CAData, KeyData := cfg.TLSClientConfig.KeyData } }

/-- Source `execHandler.ServeHTTP`. -/
def ServeHTTP (env : Env) (p : execHandler) : Served :=
  match NewConfigFromCluster env p.clusterConfig with
  | .error _ => .internalError (fmt.Errorf "invalid transport")
  | .ok (cfg, k8sclient) =>
    match env.transportFor cfg with
    | .error _ => .internalError (fmt.Errorf "invalid transport")
    | .ok rt =>
      if !p.isExec then
        match env.urlParse cfg.Host with
        | .error _ => .panic .nilDereference
        | .ok u =>
          match p.execOpts.Params with
          | none => .panic .nilDereference
          | some params =>
            let location : url.URL :=
              { Scheme := "https"
                Host := u.Host
                Path := p.execOpts.Path
                RawQuery := params.Encode }
            .proxied
              { location := location
                requestHost := env.splitHostPort location.Host
                transport := rt
                upgradeTransport := none
                flushInterval := 200 * time.Millisecond }
      else
        let kubeletcfg := kubeletConfig cfg
        let nodeConnGetter := env.newNodeConnectionInfoGetter k8sclient.nodes kubeletcfg
        match (ExecLocation k8sclient.pods nodeConnGetter p.parentName p.execOpts).outcome with
        | .err _ => .internalError (fmt.Errorf "invalid location")
        | .panic q => .panic q
        | .ok (location, _) =>
          match env.tlsConfigFor kubeletcfg with
          | .error _ => .internalError (fmt.Errorf "invalid tls config")
          | .ok tlsConfig =>
            match env.httpWrappersForConfig kubeletcfg with
            | .error _ => .internalError (fmt.Errorf "invalid upgrade request")
            | .ok upgrader =>
              .proxied
                { location := location
                  requestHost := env.splitHostPort location.Host
                  transport := rt
                  upgradeTransport := some (tlsConfig, upgrader)
                  flushInterval := 200 * time.Millisecond }

/-! ## Sample inputs -/

/-- A request path of six tokens whose last token selects exec mode. -/
def sixTokenExec : ClusterExec :=
  { Stdin := true, Stdout := true, Stderr := false, TTY := false, Container := ""
    Command := ["ls"], Path := "/api/v1/namespaces/default/exec", Params := none }

/-- A pod store holding no pod. -/
def noPods : PodGetter := fun _ name => .error (.status 404 "NotFound" name)

/-- A node connection lookup answering for every node. -/
def anyNode : ConnectionInfoGetter := fun nodeName =>
  .ok { Scheme := "https", Hostname := nodeName, Port := "10250", Transport := "kubelet" }

/-- The two-token exec path "x/exec". -/
def shortExec : ClusterExec :=
  { Stdin := false, Stdout := true, Stderr := true, TTY := false, Container := "main"
    Command := ["date"], Path := "x/exec", Params := none }

/-- An exec request for the pod `web-0` of namespace `prod`. -/
def webExec : ClusterExec :=
  { Stdin := true, Stdout := false, Stderr := true, TTY := false, Container := ""
    Command := ["sh", "-c", "echo hi"]
    Path := "/api/v1/namespaces/prod/pods/web-0/exec", Params := none }

/-- A scheduled pod with one container. -/
def webPod : Pod :=
  { Namespace := "prod", Name := "web-0"
    Spec := { Containers := [⟨"main"⟩], InitContainers := [], NodeName := "node-1" } }

/-- A scheduled pod with two containers and one init container. -/
def twoContainerPod : Pod :=
  { Namespace := "prod", Name := "web-0"
    Spec := { Containers := [⟨"main"⟩, ⟨"sidecar"⟩], InitContainers := [⟨"setup"⟩]
              NodeName := "node-1" } }

/-- A pod store answering every lookup with the given pod. -/
def onlyPod (pod : Pod) : PodGetter := fun _ _ => .ok pod

/-- A client whose pod store holds the two-container pod. -/
def demoClient : Client :=
  { pods := onlyPod twoContainerPod
    nodes := fun nodeName => .ok { Name := nodeName, Addresses := [("InternalIP", "10.0.0.7")] } }

/-- An environment with an initialised loopback configuration, where client
construction rejects the host "%zz" (a host that does not parse as a URL) and
every other collaborator succeeds. -/
def demoEnv : Env :=
  { loopbackConfig := some { Host := "https://10.0.0.1:6443", BearerToken := "local" }
    kubeClient := demoClient
    newForConfig := fun cfg =>
      if cfg.Host = "%zz" then .error (.plain "invalid URL escape") else .ok demoClient
    transportFor := fun _ => .ok "transport"
    urlParse := fun raw =>
      if raw = "https://10.0.0.1:6443" then
        .ok { Scheme := "https", Host := "10.0.0.1:6443", Path := "", RawQuery := "" }
      else .error (.plain "parse error")
    newNodeConnectionInfoGetter := fun _ _ => anyNode
    splitHostPort := fun _ => "10.0.0.1"
    tlsConfigFor := fun _ => .ok "tls"
    httpWrappersForConfig := fun _ => .ok "upgrader" }

/-- The local-mode cluster descriptor. -/
def localCluster : Cluster := { Spec := { EndpointUrl := "", SecretToken := "" } }

/-- The exec handler of cluster `cluster-a` for the request `webExec`. -/
def execDemo : execHandler :=
  { parentName := "cluster-a", isExec := true, execOpts := webExec, clusterConfig := localCluster }

/-- A request of the local proxy mode, as converted from its query. -/
def listPods : ClusterExec :=
  ConvertFromUrlValues [("path", ["/api/v1/namespaces/prod/pods"]), ("watch", ["true"])]

/-- A remote descriptor whose endpoint is a host and port pair without a
scheme, a form the client construction accepts. -/
def hostPortCluster : Cluster :=
  { Spec := { EndpointUrl := "127.0.0.1:16443", SecretToken := "t0ken" } }

/-- A remote descriptor whose endpoint is a host name without a scheme. -/
def hostNameCluster : Cluster :=
  { Spec := { EndpointUrl := "k8s.example.com", SecretToken := "t0ken" } }

/-- A parent storage holding the host and port descriptor under every name. -/
def hostPortStorage : String → Except GoError Cluster := fun _ => .ok hostPortCluster

/-- The demo environment with the answers of Go `url.Parse` on the two
endpoints without scheme: "127.0.0.1:16443" is an error (the first path
segment of a relative URL cannot contain a colon), and "k8s.example.com"
parses to a relative URL whose path is the whole text and whose host is
empty. -/
def schemelessEnv : Env :=
  { demoEnv with
    urlParse := fun raw =>
      if raw = "127.0.0.1:16443" then
        .error (.plain "first path segment in URL cannot contain colon")
      else if raw = "k8s.example.com" then
        .ok { Scheme := "", Host := "", Path := "k8s.example.com", RawQuery := "" }
      else demoEnv.urlParse raw
    splitHostPort := fun hostport =>
      if hostport = "" then "" else demoEnv.splitHostPort hostport }

/-- A remote descriptor whose endpoint does not parse as a URL. -/
def badEndpoint : Cluster := { Spec := { EndpointUrl := "%zz", SecretToken := "t0ken" } }

/-- A remote descriptor. -/
def remoteCluster : Cluster :=
  { Spec := { EndpointUrl := "https://k8s.example.com:6443", SecretToken := "t0ken" } }

/-- A secret store with one secret, `cluster-a` in namespace `backup`, that
has an endpoint and no token. -/
def demoSecrets : SecretGetter := fun ns name =>
  if ns = "backup" ∧ name = "cluster-a" then
    .ok { Data := [("endpointUrl", "https://k8s.example.com:6443")] }
  else .error (.status 404 "NotFound" "secret not found")


/-! ## Shared lemmas -/

theorem splitChars_ne_nil (sep : Char) (cs : List Char) : strings.splitChars sep cs ≠ [] := by
  induction cs with
  | nil => simp [strings.splitChars]
  | cons c cs ih =>
    unfold strings.splitChars
    split
    · simp
    · split <;> simp

theorem split_length_pos (s : String) (sep : Char) : 0 < (strings.Split s sep).length := by
  have h := splitChars_ne_nil sep s.data
  unfold strings.Split
  rw [List.length_map]
  exact List.length_pos.mpr h

theorem getElem?_length_lt {α : Type} (l : List α) (i : Nat) (x : α) (h : l[i]? = some x) :
    i < l.length := by
  rcases Nat.lt_or_ge i l.length with h1 | h1
  · exact h1
  · rw [List.getElem?_eq_none h1] at h
    cases h

theorem utf8ByteSize_go_pos (c : Char) (cs : List Char) : 0 < String.utf8ByteSize.go (c :: cs) := by
  simp only [String.utf8ByteSize.go]
  have := Char.utf8Size_pos c
  omega

theorem utf8ByteSize_eq_zero_iff (s : String) : s.utf8ByteSize = 0 ↔ s = "" := by
  constructor
  · intro h
    cases s with
    | mk data =>
      cases data with
      | nil => rfl
      | cons c cs =>
        have := utf8ByteSize_go_pos c cs
        simp only [String.utf8ByteSize] at h
        omega
  · intro h
    subst h
    rfl

theorem Traced.bind_ok {α β : Type} (cs : List Call) (a : α) (f : α → Traced β) :
    Traced.bind ⟨cs, .ok a⟩ f = ⟨cs ++ (f a).calls, (f a).outcome⟩ := rfl

theorem Traced.bind_err {α β : Type} (cs : List Call) (e : GoError) (f : α → Traced β) :
    Traced.bind ⟨cs, .err e⟩ f = ⟨cs, .err e⟩ := rfl

theorem Traced.bind_panic {α β : Type} (cs : List Call) (p : Panic) (f : α → Traced β) :
    Traced.bind ⟨cs, .panic p⟩ f = ⟨cs, .panic p⟩ := rfl

theorem streamParams_clusterExec (params : url.Values) (opts : ClusterExec) :
    ∃ out, streamParams params (.clusterExec opts) = .ok out := ⟨_, rfl⟩

theorem podHasContainer_foldl (containerName : String) (cs : List Container) (acc : Bool) :
    cs.foldl (fun hasContainer c => if c.Name = containerName then true else hasContainer) acc
      = (acc || cs.any fun c => decide (c.Name = containerName)) := by
  induction cs generalizing acc with
  | nil => simp
  | cons c cs ih =>
    simp only [List.foldl_cons, List.any_cons, ih]
    by_cases h : c.Name = containerName <;> simp [h]

theorem podHasContainerWithName_false (pod : Pod) (containerName : String)
    (h : ∀ c ∈ pod.Spec.Containers, c.Name ≠ containerName) :
    podHasContainerWithName pod containerName = false := by
  unfold podHasContainerWithName
  rw [podHasContainer_foldl]
  simp only [Bool.false_or, List.any_eq_false, decide_eq_true_eq]
  exact h

theorem streamLocation_not_short (opts : ClusterExec) (podname : String)
    (hname : (strings.Split opts.Path '/')[6]? = some podname) :
    ¬ (strings.Split opts.Path '/').length < 5 := by
  have := getElem?_length_lt _ _ _ hname
  omega


/-! ### Lemmas on `url.Values` -/

theorem Values.index_Add_same (v : url.Values) (k x : String) :
    url.Values.index (url.Values.Add v k x) k = url.Values.index v k ++ [x] := by
  induction v with
  | nil => simp [url.Values.Add, url.Values.index]
  | cons p rest ih =>
    obtain ⟨k1, vs⟩ := p
    by_cases h : k1 = k
    · simp [url.Values.Add, url.Values.index, h]
    · simp [url.Values.Add, url.Values.index, h, ih]

theorem Values.index_Add_other (v : url.Values) (k x key : String) (hk : key ≠ k) :
    url.Values.index (url.Values.Add v k x) key = url.Values.index v key := by
  induction v with
  | nil => simp [url.Values.Add, url.Values.index, Ne.symm hk]
  | cons p rest ih =>
    obtain ⟨k1, vs⟩ := p
    by_cases h : k1 = k
    · have h2 : ¬ k = key := fun e => hk e.symm
      simp [url.Values.Add, url.Values.index, h, h2]
    · by_cases h2 : k1 = key
      · subst h2
        simp [url.Values.Add, url.Values.index, h]
      · simp [url.Values.Add, url.Values.index, h, h2, ih]

theorem Values.has_Add_same (v : url.Values) (k x : String) :
    url.Values.has (url.Values.Add v k x) k = true := by
  induction v with
  | nil => simp [url.Values.Add, url.Values.has]
  | cons p rest ih =>
    obtain ⟨k1, vs⟩ := p
    by_cases h : k1 = k
    · simp [url.Values.Add, url.Values.has, h]
    · simp [url.Values.Add, url.Values.has, h, ih]

theorem Values.has_Add_other (v : url.Values) (k x key : String) (hk : key ≠ k) :
    url.Values.has (url.Values.Add v k x) key = url.Values.has v key := by
  induction v with
  | nil => simp [url.Values.Add, url.Values.has, Ne.symm hk]
  | cons p rest ih =>
    obtain ⟨k1, vs⟩ := p
    by_cases h : k1 = k
    · have h2 : ¬ k = key := fun e => hk e.symm
      simp [url.Values.Add, url.Values.has, h, h2]
    · by_cases h2 : k1 = key
      · subst h2
        simp [url.Values.Add, url.Values.has, h]
      · simp [url.Values.Add, url.Values.has, h, h2, ih]

theorem Values.index_addIf (flag : Bool) (v : url.Values) (k x key : String) :
    url.Values.index (addIf flag v k x) key
      = if flag = true ∧ key = k then url.Values.index v key ++ [x]
        else url.Values.index v key := by
  cases flag
  · simp [addIf]
  · by_cases hk : key = k
    · subst hk
      simp [addIf, Values.index_Add_same]
    · simp [addIf, hk, Values.index_Add_other v k x key hk]

theorem Values.has_addIf (flag : Bool) (v : url.Values) (k x key : String) :
    url.Values.has (addIf flag v k x) key
      = ((flag && decide (key = k)) || url.Values.has v key) := by
  cases flag
  · simp [addIf]
  · by_cases hk : key = k
    · subst hk
      simp [addIf, Values.has_Add_same]
    · simp [addIf, hk, Values.has_Add_other v k x key hk]

theorem Values.index_foldl_Add_same (cmds : List String) (v : url.Values) (k : String) :
    url.Values.index (cmds.foldl (fun params c => url.Values.Add params k c) v) k
      = url.Values.index v k ++ cmds := by
  induction cmds generalizing v with
  | nil => simp
  | cons c cs ih => simp [ih, Values.index_Add_same]

theorem Values.index_foldl_Add_other (cmds : List String) (v : url.Values) (k key : String)
    (hk : key ≠ k) :
    url.Values.index (cmds.foldl (fun params c => url.Values.Add params k c) v) key
      = url.Values.index v key := by
  induction cmds generalizing v with
  | nil => simp
  | cons c cs ih => simp [ih, Values.index_Add_other _ k c key hk]

theorem Values.has_foldl_Add_other (cmds : List String) (v : url.Values) (k key : String)
    (hk : key ≠ k) :
    url.Values.has (cmds.foldl (fun params c => url.Values.Add params k c) v) key
      = url.Values.has v key := by
  induction cmds generalizing v with
  | nil => simp
  | cons c cs ih => simp [ih, Values.has_Add_other _ k c key hk]

theorem Traced.bind_ok_inv {α β : Type} (x : Traced α) (f : α → Traced β) (b : β)
    (h : (Traced.bind x f).outcome = .ok b) :
    ∃ a, x.outcome = .ok a ∧ (f a).outcome = .ok b := by
  unfold Traced.bind at h
  cases hx : x.outcome with
  | ok a =>
    rw [hx] at h
    exact ⟨a, rfl, h⟩
  | err e =>
    rw [hx] at h
    cases h
  | panic p =>
    rw [hx] at h
    cases h

/-- Whenever `streamLocation` returns a location, its raw query is the
encoding of the parameters `streamParams` builds from the empty map. -/
theorem streamLocation_rawQuery (getter : PodGetter) (connInfo : ConnectionInfoGetter)
    (name : String) (opts : ClusterExec) (container path : String) (params : url.Values)
    (hp : streamParams [] (.clusterExec opts) = .ok params)
    (loc : url.URL) (rt : RoundTripper)
    (h : (streamLocation getter connInfo name (.clusterExec opts) container path).outcome
      = .ok (loc, rt)) :
    loc.RawQuery = params.Encode := by
  simp only [streamLocation, bind, hp] at h
  split at h
  · cases h
  · obtain ⟨podns, -, h⟩ := Traced.bind_ok_inv _ _ _ h
    obtain ⟨podname, -, h⟩ := Traced.bind_ok_inv _ _ _ h
    obtain ⟨pod, -, h⟩ := Traced.bind_ok_inv _ _ _ h
    obtain ⟨c, -, h⟩ := Traced.bind_ok_inv _ _ _ h
    split at h
    · cases h
    · obtain ⟨nodeInfo, -, h⟩ := Traced.bind_ok_inv _ _ _ h
      simp only [Traced.pure, Outcome.ok.injEq, Prod.mk.injEq] at h
      rw [← h.1]

/-! ## Path parsing -/

/-- C1: for a path of exactly 5 or 6 tokens the length guard of
`streamLocation` lets the path through and the read of token index 6 panics
with an index out of range, before any pod lookup: path parsing does fail. -/
theorem streamLocation_five_or_six_tokens_panics (getter : PodGetter)
    (connInfo : ConnectionInfoGetter) (name : String) (opts : ClusterExec)
    (container path : String)
    (h5 : 5 ≤ (strings.Split opts.Path '/').length)
    (h7 : (strings.Split opts.Path '/').length < 7) :
    streamLocation getter connInfo name (.clusterExec opts) container path
      = ⟨[], .panic (.indexOutOfRange 6 (strings.Split opts.Path '/').length)⟩ := by
  have hlen : ¬ (strings.Split opts.Path '/').length < 5 := by omega
  have h4 : ∃ x, (strings.Split opts.Path '/')[4]? = some x := by
    have h : 4 < (strings.Split opts.Path '/').length := by omega
    exact ⟨_, List.getElem?_eq_getElem h⟩
  obtain ⟨x, hx⟩ := h4
  have h6 : (strings.Split opts.Path '/')[6]? = none :=
    List.getElem?_eq_none (by omega)
  simp [streamLocation, hlen, indexString, bind, Traced.bind_ok, Traced.bind_panic, hx, h6]

/-- The six-token exec path: the guard passes and token 6 is read out of range. -/
theorem streamLocation_six_tokens_witness :
    (5 ≤ (strings.Split sixTokenExec.Path '/').length
      ∧ (strings.Split sixTokenExec.Path '/').length < 7)
    ∧ streamLocation noPods anyNode "cluster-a" (.clusterExec sixTokenExec) "" "exec"
      = ⟨[], .panic (.indexOutOfRange 6 (strings.Split sixTokenExec.Path '/').length)⟩ :=
  ⟨by decide,
    streamLocation_five_or_six_tokens_panics noPods anyNode "cluster-a" sixTokenExec "" "exec"
      (by decide) (by decide)⟩

/-- For a path with a token at index 6, `streamLocation` passes the guard and
its first collaborator call is the pod lookup with token 4 as namespace and
token 6 as pod name; a failed lookup is returned as it is. -/
theorem streamLocation_fetches_tokens (getter : PodGetter) (connInfo : ConnectionInfoGetter)
    (name : String) (opts : ClusterExec) (container path podns podname : String)
    (hns : (strings.Split opts.Path '/')[4]? = some podns)
    (hname : (strings.Split opts.Path '/')[6]? = some podname) :
    (streamLocation getter connInfo name (.clusterExec opts) container path).calls.head?
        = some (.podsGet podns podname)
      ∧ ∀ e, getter podns podname = .error e →
          streamLocation getter connInfo name (.clusterExec opts) container path
            = ⟨[.podsGet podns podname], .err e⟩ := by
  have hlen := streamLocation_not_short opts podname hname
  constructor
  · simp only [streamLocation, hlen, if_false, bind, indexString, hns, hname, Traced.bind_ok,
      List.nil_append]
    unfold Traced.bind
    cases (podsGet getter podns podname).outcome <;> simp [podsGet]
  · intro e he
    simp [streamLocation, hlen, hns, hname, indexString, bind, Traced.bind_ok, Traced.bind_err,
      podsGet, he]

/-- The exec handler of cluster `cluster-a` on the six-token exec path panics
in the target resolution. -/
theorem ServeHTTP_six_tokens_panics :
    ServeHTTP demoEnv
        { parentName := "cluster-a", isExec := true, execOpts := sixTokenExec
          clusterConfig := localCluster }
      = .panic (.indexOutOfRange 6 6) := by
  decide

/-- C2: a path of fewer than 5 tokens makes `streamLocation`, and so
`ExecLocation`, return BadRequest "invalid request" with no collaborator call
made, whatever the pod store, the node resolver and the other options are. -/
theorem streamLocation_short_path (getter : PodGetter) (connInfo : ConnectionInfoGetter)
    (name : String) (opts : ClusterExec) (container path : String)
    (h : (strings.Split opts.Path '/').length < 5) :
    streamLocation getter connInfo name (.clusterExec opts) container path
        = ⟨[], .err (errors.NewBadRequest "invalid request")⟩
      ∧ ExecLocation getter connInfo name opts
        = ⟨[], .err (errors.NewBadRequest "invalid request")⟩ := by
  simp [ExecLocation, streamLocation, h, Traced.fail]

/-- The path "x/exec" has two tokens and is rejected without any call. -/
theorem streamLocation_short_path_witness :
    (strings.Split shortExec.Path '/').length < 5
    ∧ (streamLocation noPods anyNode "cluster-a" (.clusterExec shortExec) "main" "exec"
        = ⟨[], .err (errors.NewBadRequest "invalid request")⟩
      ∧ ExecLocation noPods anyNode "cluster-a" shortExec
        = ⟨[], .err (errors.NewBadRequest "invalid request")⟩) :=
  ⟨by decide, streamLocation_short_path noPods anyNode "cluster-a" shortExec "main" "exec"
    (by decide)⟩

/-! ## Container selection -/

/-- C3: for a fetched pod with exactly one container and a scheduled node, an
empty requested container and a successful node connection lookup,
`ExecLocation` succeeds: the URL path is "/exec/" followed by the namespace
and name of the pod and the name of its single container, the scheme is the
one of the node connection info, the host is its hostname and port joined,
and the query is the encoded stream parameters. -/
theorem ExecLocation_single_container (getter : PodGetter) (connInfo : ConnectionInfoGetter)
    (name : String) (opts : ClusterExec) (podns podname : String) (pod : Pod) (c : Container)
    (info : ConnectionInfo)
    (hns : (strings.Split opts.Path '/')[4]? = some podns)
    (hname : (strings.Split opts.Path '/')[6]? = some podname)
    (hpod : getter podns podname = .ok pod)
    (hone : pod.Spec.Containers = [c])
    (hnode : pod.Spec.NodeName ≠ "")
    (hempty : opts.Container = "")
    (hinfo : connInfo pod.Spec.NodeName = .ok info) :
    ∃ params, streamParams [] (.clusterExec opts) = .ok params ∧
    ExecLocation getter connInfo name opts =
      ⟨[.podsGet podns podname, .getConnectionInfo pod.Spec.NodeName],
        .ok ({ Scheme := info.Scheme
               Host := net.JoinHostPort info.Hostname info.Port
               Path := "/exec/" ++ pod.Namespace ++ "/" ++ pod.Name ++ "/" ++ c.Name
               RawQuery := params.Encode }, info.Transport)⟩ := by
  have hlen := streamLocation_not_short opts podname hname
  have hz : ¬ pod.Spec.NodeName.utf8ByteSize = 0 := by
    rw [utf8ByteSize_eq_zero_iff]; exact hnode
  obtain ⟨params, hp⟩ := streamParams_clusterExec [] opts
  refine ⟨params, hp, ?_⟩
  simp [ExecLocation, streamLocation, hlen, hns, hname, indexString, bind, Traced.bind_ok, Traced.bind_err,
    Traced.bind_panic, podsGet, hpod,
    selectContainer, hempty, hone, Traced.pure, hz, getConnectionInfo, hinfo, hp]

/-- The pod `web-0` with the single container `main` on `node-1`. -/
theorem ExecLocation_single_container_witness :
    ∃ params, streamParams [] (.clusterExec webExec) = .ok params ∧
    ExecLocation (onlyPod webPod) anyNode "cluster-a" webExec =
      ⟨[.podsGet "prod" "web-0", .getConnectionInfo webPod.Spec.NodeName],
        .ok ({ Scheme := "https"
               Host := net.JoinHostPort "node-1" "10250"
               Path := "/exec/" ++ webPod.Namespace ++ "/" ++ webPod.Name ++ "/" ++ "main"
               RawQuery := params.Encode }, "kubelet")⟩ :=
  ExecLocation_single_container (onlyPod webPod) anyNode "cluster-a" webExec "prod" "web-0"
    webPod ⟨"main"⟩ ⟨"https", "node-1", "10250", "kubelet"⟩
    (by decide) (by decide) rfl rfl (by decide) rfl rfl

/-- C4: for a fetched pod and a non-empty requested container that is not a
container of the pod, `streamLocation` returns, with no node connection
lookup, a BadRequest whose message names the requested container and the
`name` argument of the call (which the handler sets to the name of the
cluster, not to the pod name read from the path). -/
theorem streamLocation_unknown_container (getter : PodGetter)
    (connInfo : ConnectionInfoGetter) (name : String) (opts : ClusterExec)
    (container path podns podname : String) (pod : Pod)
    (hns : (strings.Split opts.Path '/')[4]? = some podns)
    (hname : (strings.Split opts.Path '/')[6]? = some podname)
    (hpod : getter podns podname = .ok pod)
    (hcontainer : container ≠ "")
    (hmissing : ∀ c ∈ pod.Spec.Containers, c.Name ≠ container) :
    streamLocation getter connInfo name (.clusterExec opts) container path
      = ⟨[.podsGet podns podname],
          .err (errors.NewBadRequest
            ("container " ++ container ++ " is not valid for pod " ++ name))⟩ := by
  have hlen := streamLocation_not_short opts podname hname
  have hhas := podHasContainerWithName_false pod container hmissing
  simp [streamLocation, hlen, hns, hname, indexString, bind, Traced.bind_ok, Traced.bind_err,
    Traced.bind_panic, podsGet, hpod,
    selectContainer, hcontainer, hhas, Traced.fail]

/-- On cluster `cluster-a`, asking for the container `debug` of the pod `web-0`
gives the message "container debug is not valid for pod cluster-a". -/
theorem streamLocation_unknown_container_witness :
    streamLocation (onlyPod webPod) anyNode "cluster-a" (.clusterExec webExec) "debug" "exec"
      = ⟨[.podsGet "prod" "web-0"],
          .err (errors.NewBadRequest "container debug is not valid for pod cluster-a")⟩ :=
  streamLocation_unknown_container (onlyPod webPod) anyNode "cluster-a" webExec "debug" "exec"
    "prod" "web-0" webPod (by decide) (by decide) rfl (by decide) (by decide)

/-- C5: for a fetched pod with at least two containers and an empty requested
container, `streamLocation` returns a BadRequest whose message lists, between
the brackets after "choose one of:", exactly the container names of the pod
in pod-spec order joined by a space; the init containers, when they have
names, follow in a second bracketed list. -/
theorem streamLocation_ambiguous_container (getter : PodGetter)
    (connInfo : ConnectionInfoGetter) (name : String) (opts : ClusterExec)
    (path podns podname : String) (pod : Pod)
    (hns : (strings.Split opts.Path '/')[4]? = some podns)
    (hname : (strings.Split opts.Path '/')[6]? = some podname)
    (hpod : getter podns podname = .ok pod)
    (hmany : 2 ≤ pod.Spec.Containers.length) :
    streamLocation getter connInfo name (.clusterExec opts) "" path
      = ⟨[.podsGet podns podname],
          .err (errors.NewBadRequest
            ("a container name must be specified for pod " ++ name ++ ", choose one of: ["
              ++ strings.Join (pod.Spec.Containers.map Container.Name) " " ++ "]"
              ++ (if strings.Join (pod.Spec.InitContainers.map Container.Name) " " = "" then ""
                  else " or one of the init containers: ["
                    ++ strings.Join (pod.Spec.InitContainers.map Container.Name) " "
                    ++ "]")))⟩ := by
  have hlen := streamLocation_not_short opts podname hname
  obtain ⟨ns, nm, ⟨cs, ics, node⟩⟩ := pod
  match cs, hmany with
  | a :: b :: rest, _ =>
    by_cases hinit : strings.Join (ics.map Container.Name) " " = ""
    · simp [streamLocation, hlen, hns, hname, indexString, bind, Traced.bind_ok, Traced.bind_err,
    Traced.bind_panic, podsGet, hpod,
        selectContainer, Traced.fail, getContainerNames, utf8ByteSize_eq_zero_iff, hinit,
        Nat.pos_iff_ne_zero]
    · simp [streamLocation, hlen, hns, hname, indexString, bind, Traced.bind_ok, Traced.bind_err,
    Traced.bind_panic, podsGet, hpod,
        selectContainer, Traced.fail, getContainerNames, utf8ByteSize_eq_zero_iff, hinit,
        Nat.pos_iff_ne_zero, String.append_assoc]
      rw [show "] or one of the init containers: [" = "]" ++ " or one of the init containers: ["
        from by decide, String.append_assoc]

/-- The pod with containers `main` and `sidecar` and init container `setup`. -/
theorem streamLocation_ambiguous_container_witness :
    streamLocation (onlyPod twoContainerPod) anyNode "cluster-a" (.clusterExec webExec) "" "exec"
      = ⟨[.podsGet "prod" "web-0"],
          .err (errors.NewBadRequest
            ("a container name must be specified for pod " ++ "cluster-a" ++ ", choose one of: ["
              ++ strings.Join (twoContainerPod.Spec.Containers.map Container.Name) " " ++ "]"
              ++ (if strings.Join (twoContainerPod.Spec.InitContainers.map Container.Name) " " = ""
                  then ""
                  else " or one of the init containers: ["
                    ++ strings.Join (twoContainerPod.Spec.InitContainers.map Container.Name) " "
                    ++ "]")))⟩ :=
  streamLocation_ambiguous_container (onlyPod twoContainerPod) anyNode "cluster-a" webExec
    "exec" "prod" "web-0" twoContainerPod (by decide) (by decide) rfl (by decide)

/-! ## Stream parameters -/

/-- C6, as stated, fails: for the request with stdin and stderr set and the
command `sh -c "echo hi"`, the parameters built by `streamParams` have no key
"stdin" and no key "stderr"; the flags are under "input" and "error", and
the encoded query is `command=sh&command=-c&command=echo+hi&error=1&input=1`. -/
theorem streamParams_has_no_stdin_key :
    webExec.Stdin = true ∧ webExec.Stderr = true
    ∧ streamParams [] (.clusterExec webExec)
      = .ok [("input", ["1"]), ("error", ["1"]), ("command", ["sh", "-c", "echo hi"])]
    ∧ url.Values.has
        [("input", ["1"]), ("error", ["1"]), ("command", ["sh", "-c", "echo hi"])] "stdin" = false
    ∧ url.Values.has
        [("input", ["1"]), ("error", ["1"]), ("command", ["sh", "-c", "echo hi"])] "stderr" = false
    ∧ url.Values.Encode
        [("input", ["1"]), ("error", ["1"]), ("command", ["sh", "-c", "echo hi"])]
      = "command=sh&command=-c&command=echo+hi&error=1&input=1" :=
  ⟨by decide, by decide, rfl, by decide, by decide, by decide⟩

/-- C6, amended: the parameters built by `streamParams` from the empty map
hold the key named by the `corev1` constant `ExecStdinParam` ("input"),
`ExecStdoutParam` ("output"), `ExecStderrParam` ("error") or `ExecTTYParam`
("tty") exactly when the flag Stdin, Stdout, Stderr or TTY is set, then with
the single value "1"; the values under "command" are the elements of Command
in order; the keys "stdin", "stdout" and "stderr" never occur; and every
location `streamLocation` returns carries the encoding of these parameters as
its raw query. -/
theorem streamParams_keys (opts : ClusterExec) :
    ∃ params, streamParams [] (.clusterExec opts) = .ok params
      ∧ (params.has corev1.ExecStdinParam = opts.Stdin
        ∧ params.has corev1.ExecStdoutParam = opts.Stdout
        ∧ params.has corev1.ExecStderrParam = opts.Stderr
        ∧ params.has corev1.ExecTTYParam = opts.TTY)
      ∧ (params.index corev1.ExecStdinParam = (if opts.Stdin then ["1"] else [])
        ∧ params.index corev1.ExecStdoutParam = (if opts.Stdout then ["1"] else [])
        ∧ params.index corev1.ExecStderrParam = (if opts.Stderr then ["1"] else [])
        ∧ params.index corev1.ExecTTYParam = (if opts.TTY then ["1"] else []))
      ∧ params.index "command" = opts.Command
      ∧ (params.has "stdin" = false ∧ params.has "stdout" = false
        ∧ params.has "stderr" = false)
      ∧ (∀ (getter : PodGetter) (connInfo : ConnectionInfoGetter)
          (name container path : String) (loc : url.URL) (rt : RoundTripper),
          (streamLocation getter connInfo name (.clusterExec opts) container path).outcome
            = .ok (loc, rt) →
          loc.RawQuery = params.Encode) := by
  refine ⟨_, rfl, ?_, ?_, ?_, ?_, ?_⟩
  · obtain ⟨i, o, e, t, c, cmd, p, ps⟩ := opts
    simp only [corev1.ExecStdinParam, corev1.ExecStdoutParam, corev1.ExecStderrParam,
      corev1.ExecTTYParam]
    refine ⟨?_, ?_, ?_, ?_⟩ <;>
      rw [Values.has_foldl_Add_other _ _ _ _ (by decide)] <;>
      simp [Values.has_addIf, url.Values.has]
  · obtain ⟨i, o, e, t, c, cmd, p, ps⟩ := opts
    simp only [corev1.ExecStdinParam, corev1.ExecStdoutParam, corev1.ExecStderrParam,
      corev1.ExecTTYParam]
    refine ⟨?_, ?_, ?_, ?_⟩ <;>
      rw [Values.index_foldl_Add_other _ _ _ _ (by decide)] <;>
      simp [Values.index_addIf, url.Values.index]
  · obtain ⟨i, o, e, t, c, cmd, p, ps⟩ := opts
    simp only [corev1.ExecStdinParam, corev1.ExecStdoutParam, corev1.ExecStderrParam,
      corev1.ExecTTYParam]
    rw [Values.index_foldl_Add_same]
    simp [Values.index_addIf, url.Values.index]
  · obtain ⟨i, o, e, t, c, cmd, p, ps⟩ := opts
    simp only [corev1.ExecStdinParam, corev1.ExecStdoutParam, corev1.ExecStderrParam,
      corev1.ExecTTYParam]
    refine ⟨?_, ?_, ?_⟩ <;>
      rw [Values.has_foldl_Add_other _ _ _ _ (by decide)] <;>
      simp [Values.has_addIf, url.Values.has]
  · intro getter connInfo name container path loc rt h
    exact streamLocation_rawQuery getter connInfo name opts container path _ rfl loc rt h

/-- The request for `web-0`, resolved on `node-1`: the raw query of the
returned location is the encoding of the parameters. -/
theorem streamParams_keys_witness :
    ∃ params, streamParams [] (.clusterExec webExec) = .ok params
      ∧ params.index "command" = webExec.Command
      ∧ "command=sh&command=-c&command=echo+hi&error=1&input=1" = params.Encode := by
  obtain ⟨params, hp, _, _, hcmd, _, hloc⟩ := streamParams_keys webExec
  exact ⟨params, hp, hcmd,
    hloc (onlyPod webPod) anyNode "cluster-a" "" "exec"
      ⟨"https", "node-1:10250", "/exec/prod/web-0/main",
        "command=sh&command=-c&command=echo+hi&error=1&input=1"⟩
      "kubelet" (by decide)⟩

/-! ## The handler -/

/-- C7, as stated, fails: for the two-container pod and no requested
container the resolution fails with a BadRequest carrying a descriptive
message, and the handler answers with the internal error "invalid location",
which is no BadRequest and does not carry that message. -/
theorem ServeHTTP_hides_bad_request :
    (ExecLocation demoClient.pods anyNode execDemo.parentName execDemo.execOpts).outcome
        = .err (errors.NewBadRequest
            ("a container name must be specified for pod cluster-a, choose one of: "
              ++ "[main sidecar] or one of the init containers: [setup]"))
    ∧ ServeHTTP demoEnv execDemo = .internalError (fmt.Errorf "invalid location")
    ∧ errors.IsBadRequest (fmt.Errorf "invalid location") = false
    ∧ (fmt.Errorf "invalid location").Error
        ≠ "a container name must be specified for pod cluster-a, choose one of: "
          ++ "[main sidecar] or one of the init containers: [setup]" := by
  decide

/-- C7, amended: when the configuration and the transport are resolved and
the target resolution of an exec request fails (with a BadRequest or any
other error), the handler answers through the internal error responder with
the fixed message "invalid location" and does not start the proxied exchange. -/
theorem ServeHTTP_resolution_error (env : Env) (p : execHandler) (cfg : Config)
    (client : Client) (rt : RoundTripper) (e : GoError)
    (hexec : p.isExec = true)
    (hcfg : NewConfigFromCluster env p.clusterConfig = .ok (cfg, client))
    (hrt : env.transportFor cfg = .ok rt)
    (hloc : (ExecLocation client.pods
        (env.newNodeConnectionInfoGetter client.nodes (kubeletConfig cfg))
        p.parentName p.execOpts).outcome = .err e) :
    ServeHTTP env p = .internalError (fmt.Errorf "invalid location")
      ∧ ∀ x, ServeHTTP env p ≠ .proxied x := by
  have h : ServeHTTP env p = .internalError (fmt.Errorf "invalid location") := by
    simp [ServeHTTP, hcfg, hrt, hexec, hloc]
  refine ⟨h, ?_⟩
  intro x hx
  rw [h] at hx
  cases hx

/-- The ambiguous request on the demo environment. -/
theorem ServeHTTP_resolution_error_witness :
    ServeHTTP demoEnv execDemo = .internalError (fmt.Errorf "invalid location")
      ∧ ∀ x, ServeHTTP demoEnv execDemo ≠ .proxied x :=
  ServeHTTP_resolution_error demoEnv execDemo
    { Host := "https://10.0.0.1:6443", BearerToken := "local" } demoClient "transport"
    (errors.NewBadRequest
      ("a container name must be specified for pod cluster-a, choose one of: "
        ++ "[main sidecar] or one of the init containers: [setup]"))
    rfl rfl rfl (by decide)

/-- C8: when the options are connect options and the cluster is found,
`Connect` returns a handler for every path, and its `isExec` is set exactly
when the last token of the path split on "/" is "exec". For a handler not in
exec mode, once configuration and transport are resolved, `ServeHTTP` parses
the control-plane address and drops the error of the parse: when `url.Parse`
fails the handler panics on the nil URL and builds no target, and when it
succeeds the target has the path option unchanged and, as host, whatever
host the parse gave (empty for an address without scheme), not in every
case the host of the control plane. -/
theorem Connect_mode_and_local_target (storage : String → Except GoError Cluster)
    (id : String) (opts : ClusterExec) (cluster : Cluster)
    (hget : storage id = .ok cluster) :
    ∃ h, Connect (some storage) id (.clusterExec opts) = .ok h
      ∧ h.parentName = id ∧ h.execOpts = opts ∧ h.clusterConfig = cluster
      ∧ (h.isExec = true ↔ (strings.Split opts.Path '/').getLast? = some "exec")
      ∧ (h.isExec = false →
          ∀ (env : Env) (cfg : Config) (client : Client) (rt : RoundTripper),
            NewConfigFromCluster env cluster = .ok (cfg, client) →
            env.transportFor cfg = .ok rt →
            (∀ e, env.urlParse cfg.Host = .error e →
              ServeHTTP env h = .panic .nilDereference)
            ∧ (∀ (u : url.URL) (params : url.Values),
                env.urlParse cfg.Host = .ok u →
                opts.Params = some params →
                ∃ x, ServeHTTP env h = .proxied x
                  ∧ x.location.Path = opts.Path ∧ x.location.Host = u.Host
                  ∧ x.location.Scheme = "https" ∧ x.location.RawQuery = params.Encode
                  ∧ x.upgradeTransport = none)) := by
  have hpos := split_length_pos opts.Path '/'
  have hlast : ∃ last, (strings.Split opts.Path '/')[(strings.Split opts.Path '/').length - 1]?
      = some last := ⟨_, List.getElem?_eq_getElem (by omega)⟩
  obtain ⟨last, hl⟩ := hlast
  refine ⟨{ parentName := id, clusterConfig := cluster, execOpts := opts,
            isExec := last = "exec" }, ?_, rfl, rfl, rfl, ?_, ?_⟩
  · simp [Connect, hget, hl]
  · rw [List.getLast?_eq_getElem?, hl]
    simp
  · intro hmode env cfg client rt hcfg hrt
    simp only at hmode
    constructor
    · intro e he
      simp [ServeHTTP, hcfg, hrt, hmode, he]
    · intro u params hu hparams
      refine ⟨{ location := { Scheme := "https", Host := u.Host, Path := opts.Path
                              RawQuery := params.Encode }
                requestHost := env.splitHostPort u.Host
                transport := rt
                upgradeTransport := none
                flushInterval := 200 * time.Millisecond }, ?_, rfl, rfl, rfl, rfl, rfl⟩
      simp [ServeHTTP, hcfg, hrt, hmode, hu, hparams]

/-- The request listing the pods of namespace `prod`, on the cluster whose
endpoint is "127.0.0.1:16443": the handler is in the local proxy mode and
panics. -/
theorem Connect_mode_and_local_target_witness :
    ∃ h, Connect (some hostPortStorage) "cluster-a" (.clusterExec listPods) = .ok h
      ∧ h.isExec = false
      ∧ ServeHTTP schemelessEnv h = .panic .nilDereference := by
  obtain ⟨h, hc, _, _, _, hmode, hlocal⟩ :=
    Connect_mode_and_local_target hostPortStorage "cluster-a" listPods hostPortCluster rfl
  have hfalse : h.isExec = false := by
    cases hb : h.isExec with
    | false => rfl
    | true =>
      have := hmode.mp hb
      revert this
      decide
  have hpanic := (hlocal hfalse schemelessEnv (remoteConfig hostPortCluster) demoClient
    "transport" rfl rfl).1 (.plain "first path segment in URL cannot contain colon") rfl
  exact ⟨h, hc, hfalse, hpanic⟩

/-- On the cluster whose endpoint is "k8s.example.com" the handler of the same
request starts the proxied exchange towards a URL with an empty host. -/
theorem ServeHTTP_schemeless_endpoint_empty_host :
    ServeHTTP schemelessEnv
        { parentName := "cluster-a", isExec := false, execOpts := listPods
          clusterConfig := hostNameCluster }
      = .proxied
          { location :=
              { Scheme := "https", Host := "", Path := "/api/v1/namespaces/prod/pods"
                RawQuery := "path=%2Fapi%2Fv1%2Fnamespaces%2Fprod%2Fpods&watch=true" }
            requestHost := ""
            transport := "transport"
            upgradeTransport := none
            flushInterval := 200 * time.Millisecond } := by
  decide

/-! ## Client configuration -/

/-- C9, as stated, fails: for a descriptor with a non-empty EndpointUrl whose
client cannot be constructed, `NewConfigFromCluster` returns the error of the
client construction and no configuration. -/
theorem NewConfigFromCluster_remote_can_fail :
    badEndpoint.Spec.EndpointUrl ≠ ""
    ∧ NewConfigFromCluster demoEnv badEndpoint = .error (.plain "invalid URL escape")
    ∧ ¬ ∃ cfg client, NewConfigFromCluster demoEnv badEndpoint = .ok (cfg, client) := by
  have h : NewConfigFromCluster demoEnv badEndpoint = .error (.plain "invalid URL escape") := rfl
  refine ⟨by decide, h, ?_⟩
  rintro ⟨cfg, client, hok⟩
  rw [h] at hok
  cases hok

/-- C9, amended: when EndpointUrl and SecretToken are both empty the result
is the loopback configuration with the process-wide client, or the error
"invalid client config" when the loopback configuration is not initialised;
in every other case the loopback configuration plays no part: the function
builds the remote configuration (Host the EndpointUrl, BearerToken the
SecretToken, TLS verification skipped, timeout 40 s) and returns it with the
client constructed from it, or returns the error of that construction. -/
theorem NewConfigFromCluster_cases (env : Env) (c : Cluster) :
    (c.Spec.EndpointUrl = "" ∧ c.Spec.SecretToken = "" →
      NewConfigFromCluster env c
        = match env.loopbackConfig with
          | none => .error (fmt.Errorf "invalid client config")
          | some cfg => .ok (cfg, env.kubeClient))
    ∧ (¬ (c.Spec.EndpointUrl = "" ∧ c.Spec.SecretToken = "") →
      ∃ cfg : Config,
        cfg.Host = c.Spec.EndpointUrl ∧ cfg.BearerToken = c.Spec.SecretToken
        ∧ cfg.TLSClientConfig.Insecure = true ∧ cfg.Timeout = 40 * time.Second
        ∧ (∀ client, env.newForConfig cfg = .ok client →
            NewConfigFromCluster env c = .ok (cfg, client))
        ∧ (∀ err, env.newForConfig cfg = .error err →
            NewConfigFromCluster env c = .error err)) := by
  constructor
  · intro h
    simp [NewConfigFromCluster, h]
  · intro h
    refine ⟨remoteConfig c, rfl, rfl, rfl, by simp [remoteConfig, Nat.mul_comm], ?_, ?_⟩
    · intro client hc
      simp [NewConfigFromCluster, h, hc]
    · intro err hc
      simp [NewConfigFromCluster, h, hc]

/-- The remote descriptor on the demo environment. -/
theorem NewConfigFromCluster_cases_witness :
    ∃ cfg : Config,
      cfg.Host = "https://k8s.example.com:6443" ∧ cfg.BearerToken = "t0ken"
      ∧ cfg.TLSClientConfig.Insecure = true
      ∧ NewConfigFromCluster demoEnv remoteCluster = .ok (cfg, demoClient) := by
  obtain ⟨cfg, hhost, htoken, htls, _, hok, _⟩ :=
    (NewConfigFromCluster_cases demoEnv remoteCluster).2 (by decide)
  refine ⟨cfg, hhost, htoken, htls, hok demoClient ?_⟩
  have hne : cfg.Host ≠ "%zz" := by
    rw [hhost]; decide
  simp [demoEnv, hne]

/-! ## Cluster descriptor storage -/

/-- C10: `Cluster.Get` returns a nil error for every name; when the secret
lookup fails the descriptor has empty EndpointUrl and SecretToken, and
otherwise they are the fields "endpointUrl" and "token" of the data of the
secret, a field the data does not hold reading as the empty string. -/
theorem Cluster_Get_never_fails (secrets : SecretGetter) (namespaceName name : String) :
    (Cluster.Get secrets namespaceName name).2 = none
    ∧ (∀ e, secrets namespaceName name = .error e →
        (Cluster.Get secrets namespaceName name).1
          = { Spec := { EndpointUrl := "", SecretToken := "" } })
    ∧ (∀ secret, secrets namespaceName name = .ok secret →
        (Cluster.Get secrets namespaceName name).1.Spec.EndpointUrl
            = dataIndex secret.Data "endpointUrl"
          ∧ (Cluster.Get secrets namespaceName name).1.Spec.SecretToken
            = dataIndex secret.Data "token"
          ∧ ((∀ v, ("endpointUrl", v) ∉ secret.Data) →
              (Cluster.Get secrets namespaceName name).1.Spec.EndpointUrl = "")
          ∧ ((∀ v, ("token", v) ∉ secret.Data) →
              (Cluster.Get secrets namespaceName name).1.Spec.SecretToken = "")) := by
  have hmissing : ∀ (m : List (String × String)) (key : String),
      (∀ v, (key, v) ∉ m) → dataIndex m key = "" := by
    intro m key
    induction m with
    | nil => intro _; rfl
    | cons p rest ih =>
      obtain ⟨k, v⟩ := p
      intro h
      have hk : k ≠ key := by
        intro hk
        exact h v (by simp [hk])
      simp only [dataIndex, hk, if_false]
      exact ih fun w hw => h w (List.mem_cons_of_mem _ hw)
  refine ⟨?_, ?_, ?_⟩
  · unfold Cluster.Get
    cases secrets namespaceName name <;> rfl
  · intro e he
    simp [Cluster.Get, he]
  · intro secret hs
    have h1 : (Cluster.Get secrets namespaceName name).1.Spec.EndpointUrl
        = dataIndex secret.Data "endpointUrl" := by simp [Cluster.Get, hs]
    have h2 : (Cluster.Get secrets namespaceName name).1.Spec.SecretToken
        = dataIndex secret.Data "token" := by simp [Cluster.Get, hs]
    refine ⟨h1, h2, ?_, ?_⟩
    · intro h
      rw [h1]
      exact hmissing _ _ h
    · intro h
      rw [h2]
      exact hmissing _ _ h

/-- The stored secret `cluster-a`, which has no token, and an unknown name. -/
theorem Cluster_Get_never_fails_witness :
    ((Cluster.Get demoSecrets "backup" "cluster-a").1.Spec.EndpointUrl
        = "https://k8s.example.com:6443"
      ∧ (Cluster.Get demoSecrets "backup" "cluster-a").1.Spec.SecretToken = "")
    ∧ (Cluster.Get demoSecrets "backup" "unknown").1
        = { Spec := { EndpointUrl := "", SecretToken := "" } } := by
  obtain ⟨_, _, hok⟩ := Cluster_Get_never_fails demoSecrets "backup" "cluster-a"
  obtain ⟨_, herr, _⟩ := Cluster_Get_never_fails demoSecrets "backup" "unknown"
  obtain ⟨h1, _, _, h4⟩ := hok { Data := [("endpointUrl", "https://k8s.example.com:6443")] } rfl
  exact ⟨⟨h1, h4 (by simp)⟩, herr (.status 404 "NotFound" "secret not found") rfl⟩

end Kexer
